import Mathlib

/-!
Shallow embedding of the SNMP-Monitoring backend (FastAPI/SQLAlchemy) core:
the alert evaluators of `services/alert_service.py`, the polling engine of
`services/polling_service.py`, the poll coordinator of
`services/polling_state.py`, and the alert-management endpoints of
`app/api/v1/endpoints/device_alerts.py`.

Timestamps are modelled as integers (an abstract totally ordered clock);
floats of the source are modelled as rationals; SQLAlchemy nullable columns
are `Option`; Python exceptions are `Except String`.  Notifications
(`AlertEvaluator._notify`) are modelled by returning the list of e-mails an
evaluation dispatches (tagged by subject line), and alert-history openings
(`AlertHistoryService.create_alert_record`) by a counter of records opened.
-/

namespace SnmpMon

/-- Alert lifecycle states, the string enum `clear/triggered/acknowledged`
of `models.Device.*_alert_state` and `models.Interface.*_alert_state`. -/
inductive AlertState where
  | clear
  | triggered
  | acknowledged
deriving DecidableEq, Repr

/-- `models.Interface` (app/core/models.py): per-interface alert state and
speed bookkeeping.  Identity plumbing (`id`, `device_id`) is omitted. -/
structure Interface where
  if_index : Int
  if_name : String
  speed_bps : Option Int
  speed_source : Option String
  packet_drop_threshold : ℚ
  oper_status_alert_state : AlertState
  oper_status_acknowledged_at : Option Int
  packet_drop_alert_state : AlertState
  packet_drop_acknowledged_at : Option Int
  packet_drop_alert_sent : Bool
  oper_status_alert_sent : Bool
deriving DecidableEq, Repr

/-- `models.Device` (app/core/models.py): thresholds, the three device-level
alert-state triples, maintenance mode, poll tracking, and the owned
interfaces (the `interfaces` relationship). -/
structure Device where
  hostname : String
  ip_address : String
  cpu_threshold : ℚ
  memory_threshold : ℚ
  failure_threshold : Nat
  cpu_alert_state : AlertState
  cpu_acknowledged_at : Option Int
  memory_alert_state : AlertState
  memory_acknowledged_at : Option Int
  reachability_alert_state : AlertState
  reachability_acknowledged_at : Option Int
  cpu_alert_sent : Bool
  memory_alert_sent : Bool
  reachability_alert_sent : Bool
  maintenance_mode : Bool
  maintenance_until : Option Int
  maintenance_reason : Option String
  last_poll_attempt : Option Int
  last_poll_success : Option Int
  consecutive_failures : Nat
  is_reachable : Bool
  interfaces : List Interface
deriving DecidableEq, Repr

/-- `models.InterfaceMetric` (app/core/models.py): exactly the columns the
ORM class declares — status codes and the octet/error/discard counters.
The class declares no unicast/multicast/broadcast packet columns. -/
structure InterfaceMetric where
  timestamp : Int
  admin_status : Option Int
  oper_status : Option Int
  octets_in : Option Int
  octets_out : Option Int
  errors_in : Option Int
  errors_out : Option Int
  discards_in : Option Int
  discards_out : Option Int
deriving DecidableEq, Repr

/-- One `AlertEvaluator._notify` dispatch, identified by the e-mail subject
line the source builds; the argument is the `{device.hostname}` slot of
that subject. -/
inductive Notif where
  | cpuAlert (hostname : String)
  | cpuRecovery (hostname : String)
  | memoryAlert (hostname : String)
  | memoryRecovery (hostname : String)
  | unreachableAlert (hostname : String)
  | deviceRecovered (hostname : String)
  | interfaceAlerts (hostname : String)
  | interfaceRecovery (hostname : String)
deriving DecidableEq, Repr

/-- Result of one device-level evaluator call: the updated device, the
e-mails sent via `AlertEvaluator._notify`, the number of alert-history
records opened via `create_alert_record`, and the `is_triggered` boolean
the Python function returns. -/
structure DeviceEvalOut where
  device : Device
  notifications : List Notif
  records_opened : Nat
  result : Bool
deriving DecidableEq, Repr

/-- Threshold/state branch of `AlertEvaluator.evaluate_cpu`
(alert_service.py, after the maintenance gate). -/
def evaluate_cpu_core (device : Device) (current_val : ℚ) : DeviceEvalOut :=
  if device.cpu_threshold < current_val then
    if device.cpu_alert_state = .clear then
      { device := { device with cpu_alert_state := .triggered, cpu_alert_sent := true }
        notifications := [.cpuAlert device.hostname]
        records_opened := 1
        result := true }
    else
      { device := device, notifications := [], records_opened := 0, result := false }
  else
    if device.cpu_alert_state = .triggered ∨ device.cpu_alert_state = .acknowledged then
      { device := { device with cpu_alert_state := .clear, cpu_acknowledged_at := none,
                                cpu_alert_sent := false }
        notifications := [.cpuRecovery device.hostname]
        records_opened := 0
        result := true }
    else
      { device := device, notifications := [], records_opened := 0, result := false }

/-- `AlertEvaluator.evaluate_cpu`: its maintenance gate suppresses while the
window is open and, when the window has expired, disables maintenance
(clearing the until/reason fields) before evaluating. -/
def evaluate_cpu (device : Device) (current_val : ℚ) (now : Int) : DeviceEvalOut :=
  match device.maintenance_mode, device.maintenance_until with
  | true, some u =>
    if now < u then
      { device := device, notifications := [], records_opened := 0, result := false }
    else
      evaluate_cpu_core
        { device with maintenance_mode := false, maintenance_until := none,
                      maintenance_reason := none } current_val
  | _, _ => evaluate_cpu_core device current_val

/-- Threshold/state branch of `AlertEvaluator.evaluate_memory`. -/
def evaluate_memory_core (device : Device) (current_val : ℚ) : DeviceEvalOut :=
  if device.memory_threshold < current_val then
    if device.memory_alert_state = .clear then
      { device := { device with memory_alert_state := .triggered, memory_alert_sent := true }
        notifications := [.memoryAlert device.hostname]
        records_opened := 1
        result := true }
    else
      { device := device, notifications := [], records_opened := 0, result := false }
  else
    if device.memory_alert_state = .triggered ∨ device.memory_alert_state = .acknowledged then
      { device := { device with memory_alert_state := .clear, memory_acknowledged_at := none,
                                memory_alert_sent := false }
        notifications := [.memoryRecovery device.hostname]
        records_opened := 0
        result := true }
    else
      { device := device, notifications := [], records_opened := 0, result := false }

/-- `AlertEvaluator.evaluate_memory`: its maintenance gate only suppresses
while the window is open; an expired window falls through to normal
evaluation without touching the maintenance fields. -/
def evaluate_memory (device : Device) (current_val : ℚ) (now : Int) : DeviceEvalOut :=
  match device.maintenance_mode, device.maintenance_until with
  | true, some u =>
    if now < u then
      { device := device, notifications := [], records_opened := 0, result := false }
    else
      evaluate_memory_core device current_val
  | _, _ => evaluate_memory_core device current_val

/-- Threshold/state branch of `AlertEvaluator.evaluate_reachability`; the
breach condition is `not device.is_reachable`. -/
def evaluate_reachability_core (device : Device) : DeviceEvalOut :=
  if ¬ device.is_reachable then
    if device.reachability_alert_state = .clear then
      { device := { device with reachability_alert_state := .triggered,
                                reachability_alert_sent := true }
        notifications := [.unreachableAlert device.hostname]
        records_opened := 1
        result := true }
    else
      { device := device, notifications := [], records_opened := 0, result := false }
  else
    if device.reachability_alert_state = .triggered ∨
        device.reachability_alert_state = .acknowledged then
      { device := { device with reachability_alert_state := .clear,
                                reachability_acknowledged_at := none,
                                reachability_alert_sent := false }
        notifications := [.deviceRecovered device.hostname]
        records_opened := 0
        result := true }
    else
      { device := device, notifications := [], records_opened := 0, result := false }

/-- `AlertEvaluator.evaluate_reachability`: same suppress-only maintenance
gate as `evaluate_memory`. -/
def evaluate_reachability (device : Device) (now : Int) : DeviceEvalOut :=
  match device.maintenance_mode, device.maintenance_until with
  | true, some u =>
    if now < u then
      { device := device, notifications := [], records_opened := 0, result := false }
    else
      evaluate_reachability_core device
  | _, _ => evaluate_reachability_core device

/-- Python attribute access on an `InterfaceMetric` row: looking up a name
that is not one of the columns declared in models.py raises
`AttributeError`.  (All counter columns are nullable, hence `Option Int`.) -/
def InterfaceMetric.getAttr (m : InterfaceMetric) : String → Except String (Option Int)
  | "admin_status" => .ok m.admin_status
  | "oper_status" => .ok m.oper_status
  | "octets_in" => .ok m.octets_in
  | "octets_out" => .ok m.octets_out
  | "errors_in" => .ok m.errors_in
  | "errors_out" => .ok m.errors_out
  | "discards_in" => .ok m.discards_in
  | "discards_out" => .ok m.discards_out
  | name => .error ("AttributeError: " ++ name)

/-- `get_safe_delta` as defined inside `_check_packet_drops`
(alert_service.py): `None` on either side gives 0, a negative raw delta is
discarded as a counter wrap/reset and gives 0. -/
def get_safe_delta : Option Int → Option Int → Int
  | none, _ => 0
  | some _, none => 0
  | some curr, some prev => if curr - prev < 0 then 0 else curr - prev

/-- Result of one interface-level check (`_check_oper_status` /
`_check_packet_drops`): the updated interface, the message returned to
`evaluate_interfaces` (None when no notifiable event occurred), and whether
an alert-history record was opened. -/
structure IfaceCheckOut where
  interface : Interface
  message : Option String
  record_opened : Bool
deriving DecidableEq, Repr

/-- `AlertEvaluator._check_oper_status`: edge-triggered DOWN detection
(previous sample up, latest sample down) with the persisted three-state
alert machine.  `is_down` is `oper_status != 1`, so a missing status counts
as down, exactly as in Python where `None != 1` is true. -/
def check_oper_status (device : Device) (iface : Interface)
    (latest : InterfaceMetric) (previous : Option InterfaceMetric) : IfaceCheckOut :=
  let _ := device.hostname
  let is_down := latest.oper_status ≠ some 1
  if is_down then
    if iface.oper_status_alert_state = .clear then
      match previous with
      | some prev =>
        if prev.oper_status ≠ some 1 then
          { interface := iface, message := none, record_opened := false }
        else
          { interface :=
              { iface with oper_status_alert_state := .triggered,
                           oper_status_alert_sent := true }
            message := some ("Interface " ++ iface.if_name ++ " is DOWN")
            record_opened := true }
      | none => { interface := iface, message := none, record_opened := false }
    else
      { interface := iface, message := none, record_opened := false }
  else
    if iface.oper_status_alert_state = .triggered ∨
        iface.oper_status_alert_state = .acknowledged then
      { interface :=
          { iface with oper_status_alert_state := .clear,
                       oper_status_acknowledged_at := none,
                       oper_status_alert_sent := false }
        message := some ("Interface " ++ iface.if_name ++ " is UP")
        record_opened := false }
    else
      { interface := iface, message := none, record_opened := false }

/-- `AlertEvaluator._check_packet_drops`, transcribed statement by
statement.  Counter reads go through `InterfaceMetric.getAttr` because the
source reads `packets_in`, `packets_out`, `multicast_packets_in/out` and
`broadcast_packets_in/out` off the metric rows, and none of those are
columns of `models.InterfaceMetric` — in Python each such read raises
`AttributeError`, which the `Except` monad propagates here. -/
def check_packet_drops (device : Device) (iface : Interface)
    (latest : InterfaceMetric) (previous : Option InterfaceMetric) :
    Except String IfaceCheckOut :=
  let _ := device.hostname
  match previous with
  | none => .ok { interface := iface, message := none, record_opened := false }
  | some prev => do
    let di_curr ← latest.getAttr "discards_in"
    let di_prev ← prev.getAttr "discards_in"
    let do_curr ← latest.getAttr "discards_out"
    let do_prev ← prev.getAttr "discards_out"
    let delta_discards_in := get_safe_delta di_curr di_prev
    let delta_discards_out := get_safe_delta do_curr do_prev
    let total_drop_delta := delta_discards_in + delta_discards_out
    let pi_curr ← latest.getAttr "packets_in"
    let pi_prev ← prev.getAttr "packets_in"
    let po_curr ← latest.getAttr "packets_out"
    let po_prev ← prev.getAttr "packets_out"
    let delta_pkts_in := get_safe_delta pi_curr pi_prev
    let delta_pkts_out := get_safe_delta po_curr po_prev
    let mi_curr ← latest.getAttr "multicast_packets_in"
    let mi_prev ← prev.getAttr "multicast_packets_in"
    let mo_curr ← latest.getAttr "multicast_packets_out"
    let mo_prev ← prev.getAttr "multicast_packets_out"
    let delta_mcast_in := get_safe_delta mi_curr mi_prev
    let delta_mcast_out := get_safe_delta mo_curr mo_prev
    let bi_curr ← latest.getAttr "broadcast_packets_in"
    let bi_prev ← prev.getAttr "broadcast_packets_in"
    let bo_curr ← latest.getAttr "broadcast_packets_out"
    let bo_prev ← prev.getAttr "broadcast_packets_out"
    let delta_bcast_in := get_safe_delta bi_curr bi_prev
    let delta_bcast_out := get_safe_delta bo_curr bo_prev
    let total_packet_delta := delta_pkts_in + delta_pkts_out + delta_mcast_in +
      delta_mcast_out + delta_bcast_in + delta_bcast_out
    let total_events := total_packet_delta + total_drop_delta
    let discard_rate : ℚ :=
      if total_events = 0 then 0 else ((total_drop_delta : ℚ) / (total_events : ℚ)) * 100
    let is_exceeded := iface.packet_drop_threshold < discard_rate
    if is_exceeded then
      if iface.packet_drop_alert_state = .clear then
        .ok { interface :=
                { iface with packet_drop_alert_state := .triggered,
                             packet_drop_alert_sent := true }
              message := some ("Interface " ++ iface.if_name ++ " has high discard rate")
              record_opened := true }
      else
        .ok { interface := iface, message := none, record_opened := false }
    else
      if iface.packet_drop_alert_state = .triggered ∨
          iface.packet_drop_alert_state = .acknowledged then
        .ok { interface :=
                { iface with packet_drop_alert_state := .clear,
                             packet_drop_acknowledged_at := none,
                             packet_drop_alert_sent := false }
              message := some ("Interface " ++ iface.if_name ++ " discard rate is normal")
              record_opened := false }
      else
        .ok { interface := iface, message := none, record_opened := false }

/-- The discard-rate arithmetic of `_check_packet_drops` in isolation, as a
function of the eight safe deltas the source computes: rate =
drops / (packets passed + packets dropped) × 100, with a zero total giving
rate 0.  This is the computation the source would perform if the metric
rows carried the packet counters it reads. -/
def discard_rate_formula (dIn dOut pIn pOut mIn mOut bIn bOut : Int) : ℚ :=
  let total_drop_delta := dIn + dOut
  let total_packet_delta := pIn + pOut + mIn + mOut + bIn + bOut
  let total_events := total_packet_delta + total_drop_delta
  if total_events = 0 then 0 else ((total_drop_delta : ℚ) / (total_events : ℚ)) * 100

/-! ## Polling engine (services/polling_service.py) -/

/-- `schemas.INTERFACE_OIDS` entries used by the polling engine. -/
def OID_if_descr : String := "1.3.6.1.2.1.2.2.1.2"

def OID_if_speed : String := "1.3.6.1.2.1.2.2.1.5"

def OID_if_high_speed : String := "1.3.6.1.2.1.31.1.1.1.15"

def OID_if_admin_status : String := "1.3.6.1.2.1.2.2.1.7"

def OID_if_oper_status : String := "1.3.6.1.2.1.2.2.1.8"

def OID_in_octets : String := "1.3.6.1.2.1.31.1.1.1.6"

def OID_out_octets : String := "1.3.6.1.2.1.31.1.1.1.10"

def OID_in_errors : String := "1.3.6.1.2.1.2.2.1.14"

def OID_out_errors : String := "1.3.6.1.2.1.2.2.1.20"

def OID_in_discards : String := "1.3.6.1.2.1.2.2.1.13"

def OID_out_discards : String := "1.3.6.1.2.1.2.2.1.19"

/-- Digit-accumulation loop of `py_int?`; `none` accumulator means no digit
seen yet, so the empty digit string parses to nothing. -/
def py_digits? : List Char → Option Nat → Option Nat
  | [], acc => acc
  | c :: cs, acc =>
    if c.isDigit then py_digits? cs (some ((acc.getD 0) * 10 + (c.toNat - 48)))
    else none

/-- `int(value)` on an SNMP string value: an optional leading minus sign
followed by one or more ASCII digits; anything else raises `ValueError`,
modelled as `none`.  (Python's tolerance for surrounding whitespace and
underscores is not modelled; SNMP values carry neither.)  Written over the
character list so that concrete inputs evaluate inside the kernel. -/
def py_int? (s : String) : Option Int :=
  match s.data with
  | '-' :: cs => (py_digits? cs none).map (fun n => -(n : Int))
  | cs => (py_digits? cs none).map (fun n => (n : Int))

/-- `raw_data.get(key)` on the per-interface OID→value map, modelled as an
association list. -/
def raw_get (raw : List (String × String)) (key : String) : Option String :=
  (raw.find? (fun p => p.1 = key)).map (fun p => p.2)

/-- Python truthiness of `raw_data.get(key)`: `None` and the empty string
are falsy, any other string truthy. -/
def py_truthy : Option String → Bool
  | none => false
  | some s => s ≠ ""

/-- The `ifSpeed` fallback block of `calculate_interface_speed`
(polling_service.py): accept the legacy `ifSpeed` (bps) only when strictly
between 0 and the 2^32−1 cap sentinel.  `int(value)` on a non-numeric
string raises and is swallowed (`except: pass`), modelled by
`py_int?` returning `none`. -/
def if_speed_fallback (raw : List (String × String)) : Option (Int × String) :=
  let speed_bps := raw_get raw OID_if_speed
  if py_truthy speed_bps then
    match speed_bps.bind py_int? with
    | some speed_int =>
      if 0 < speed_int ∧ speed_int < 4294967295 then some (speed_int, "ifSpeed") else none
    | none => none
  else none

/-- `calculate_interface_speed` proper: the leading `ifHighSpeed` attempt,
falling through to the `ifSpeed` block above whenever `ifHighSpeed` is
absent, non-numeric, or not strictly positive. -/
def calculate_interface_speed (raw : List (String × String)) : Option (Int × String) :=
  let high_speed_mbps := raw_get raw OID_if_high_speed
  if py_truthy high_speed_mbps then
    match high_speed_mbps.bind py_int? with
    | some high_speed_int =>
      if 0 < high_speed_int then some (high_speed_int * 1000000, "ifHighSpeed")
      else if_speed_fallback raw
    | none => if_speed_fallback raw
  else if_speed_fallback raw

/-- Body of the per-interface loop of `clear_interface_alerts`
(polling_service.py): an interface with any non-clear alert state has both
alert pairs reset; an interface already clear on both is left untouched. -/
def clear_one_interface (iface : Interface) : Interface :=
  if iface.oper_status_alert_state ≠ .clear ∨ iface.packet_drop_alert_state ≠ .clear then
    { iface with oper_status_alert_state := .clear,
                 oper_status_acknowledged_at := none,
                 packet_drop_alert_state := .clear,
                 packet_drop_acknowledged_at := none,
                 oper_status_alert_sent := false,
                 packet_drop_alert_sent := false }
  else iface

/-- `clear_interface_alerts` (polling_service.py): maps the reset over the
device's interfaces.  The function contains no `_notify` call, so its
notification list is `[]` by construction. -/
def clear_interface_alerts (device : Device) : Device × List Notif :=
  ({ device with interfaces := device.interfaces.map clear_one_interface }, [])

/-- Outcome of the device-level SNMP GET in `poll_device`: either a uniform
failure, or a success already reduced to the CPU%/memory% the source
computes from the vendor OID values (Cisco pool formula
`used/(used+free)×100`). -/
inductive SnmpResult where
  | failure
  | success (cpu_val mem_val : ℚ)
deriving DecidableEq, Repr

/-- One row of `models.DeviceMetric` as written by a poll. -/
structure DeviceMetricRow where
  timestamp : Int
  cpu_utilization : ℚ
  memory_utilization : ℚ
deriving DecidableEq, Repr

/-- Modelled from the spec: `insert_device_metric` lives in
`services/device_service.py`, which is absent from these sources (only its
caller `poll_device` is present); per §4.4/§6 `appendDeviceMetric` appends
exactly one device metric sample carrying the caller-supplied timestamp. -/
def insert_device_metric (cpu mem : ℚ) (timestamp : Int) : DeviceMetricRow :=
  { timestamp := timestamp, cpu_utilization := cpu, memory_utilization := mem }

/-- Result of `poll_device`: updated device, device metric rows written,
notification subjects emitted, and the boolean the coroutine returns. -/
structure PollDeviceOut where
  device : Device
  metric_rows : List DeviceMetricRow
  notifications : List Notif
  succeeded : Bool
deriving DecidableEq, Repr

/-- `poll_device` (polling_service.py).  Failure path: mark the attempt,
bump `consecutive_failures`, flip `is_reachable` once the failure threshold
is reached, run the reachability evaluator, write no metric row, return
False.  Success path: mark success, reset the counter, restore
reachability, run the reachability/CPU/memory evaluators, append one metric
row stamped with `poll_time`. -/
def poll_device (device : Device) (res : SnmpResult) (poll_time now : Int) : PollDeviceOut :=
  let device := { device with last_poll_attempt := some poll_time }
  match res with
  | .failure =>
    let device := { device with consecutive_failures := device.consecutive_failures + 1 }
    let device :=
      if device.failure_threshold ≤ device.consecutive_failures ∧ device.is_reachable then
        { device with is_reachable := false }
      else device
    let reach := evaluate_reachability device now
    { device := reach.device, metric_rows := [],
      notifications := reach.notifications, succeeded := false }
  | .success cpu_val mem_val =>
    let device := { device with last_poll_success := some poll_time,
                                consecutive_failures := 0 }
    let device := if ¬ device.is_reachable then { device with is_reachable := true } else device
    let reach := evaluate_reachability device now
    let cpu := evaluate_cpu reach.device cpu_val now
    let mem := evaluate_memory cpu.device mem_val now
    { device := mem.device
      metric_rows := [insert_device_metric cpu_val mem_val poll_time]
      notifications := reach.notifications ++ cpu.notifications ++ mem.notifications
      succeeded := true }

/-- `int(float(raw.get(oid, 0)))` / `int(raw.get(oid, 0))` on a counter
value (a parse failure would abort the device's interface poll; the value
itself is irrelevant to the properties proved below, so it collapses to 0). -/
def parse_counter (v : Option String) : Int := (((v.getD "0").toInt?).getD 0)

/-- The `models.InterfaceMetric(...)` construction inside `poll_interfaces`:
one row per walked interface, explicitly stamped `timestamp=poll_time`.
The source also passes `packets_in=`/`packets_out=` keywords for which
`models.InterfaceMetric` declares no columns; the fields below are the ones
the ORM class defines. -/
def build_interface_metric (poll_time : Int) (raw : List (String × String)) : InterfaceMetric :=
  { timestamp := poll_time
    admin_status := some (parse_counter (raw_get raw OID_if_admin_status))
    oper_status := some (parse_counter (raw_get raw OID_if_oper_status))
    octets_in := some (parse_counter (raw_get raw OID_in_octets))
    octets_out := some (parse_counter (raw_get raw OID_out_octets))
    errors_in := some (parse_counter (raw_get raw OID_in_errors))
    errors_out := some (parse_counter (raw_get raw OID_out_errors))
    discards_in := some (parse_counter (raw_get raw OID_in_discards))
    discards_out := some (parse_counter (raw_get raw OID_out_discards)) }

/-- The metric-row slice of `poll_interfaces` (polling_service.py): a failed
bulk walk writes nothing; a successful walk yields one row per interface
index, every row carrying the caller's `poll_time`. -/
def poll_interfaces_rows (walk : Option (List (Nat × List (String × String))))
    (poll_time : Int) : List InterfaceMetric :=
  match walk with
  | none => []
  | some data => data.map (fun r => build_interface_metric poll_time r.2)

/-- What one `limited_polling` task produced for its device. -/
structure TaskOut where
  device : Device
  device_rows : List DeviceMetricRow
  interface_rows : List InterfaceMetric
  notifications : List Notif
  interface_poll_attempted : Bool
  succeeded : Bool
deriving DecidableEq, Repr

/-- `limited_polling` inside `perform_full_poll` (polling_service.py):
poll the device with the shared cycle timestamp; on success also poll its
interfaces with that same timestamp; on failure skip the interface poll
and, when the device is (now) unreachable, force its interface alert
states clear. -/
def limited_polling (device : Device) (res : SnmpResult)
    (walk : Option (List (Nat × List (String × String)))) (poll_time now : Int) : TaskOut :=
  let p := poll_device device res poll_time now
  if p.succeeded then
    { device := p.device
      device_rows := p.metric_rows
      interface_rows := poll_interfaces_rows walk poll_time
      notifications := p.notifications
      interface_poll_attempted := true
      succeeded := true }
  else
    let cleared :=
      if ¬ p.device.is_reachable then clear_interface_alerts p.device else (p.device, [])
    { device := cleared.1
      device_rows := p.metric_rows
      interface_rows := []
      notifications := p.notifications ++ cleared.2
      interface_poll_attempted := false
      succeeded := false }

/-- `perform_full_poll` (polling_service.py): one cycle timestamp is taken
once (`polling_cycle_timestamp = datetime.now(...)`) before fanning out, and
every per-device task receives exactly that timestamp.  Each job is a
device together with the outcome of its SNMP GET and its interface walk. -/
def perform_full_poll
    (jobs : List (Device × SnmpResult × Option (List (Nat × List (String × String)))))
    (cycle_time now : Int) : List TaskOut :=
  jobs.map (fun j => limited_polling j.1 j.2.1 j.2.2 cycle_time now)

/-! ## Poll coordinator (services/polling_state.py, main.py, endpoints/polling.py) -/

/-- The fields guarded by the `asyncio.Lock` of `PollingState`. -/
structure PollingState where
  is_polling : Bool
  polling_type : Option String
deriving DecidableEq, Repr

/-- `PollingState.__init__`. -/
def PollingState.initial : PollingState := { is_polling := false, polling_type := none }

/-- `PollingState.start_polling`: returns False and leaves the state
untouched when a poll is already running, else records the kind and
returns True.  The whole body runs under the instance lock, so it is one
atomic step. -/
def start_polling (s : PollingState) (polling_type : String) : PollingState × Bool :=
  if s.is_polling then (s, false)
  else ({ is_polling := true, polling_type := some polling_type }, true)

/-- `PollingState.end_polling`: unconditionally back to not-running. -/
def end_polling (_ : PollingState) : PollingState :=
  { is_polling := false, polling_type := none }

/-- Coordinator-level state: the shared `PollingState` plus the number of
poll cycles currently executing (a ghost counter used to state mutual
exclusion). -/
structure CoordState where
  ps : PollingState
  active : Nat
deriving DecidableEq, Repr

/-- What one driver decision produced. -/
inductive CoordEv where
  | autoSkipped
  | autoStarted
  | manualConflict
  | manualStarted
  | cycleEnded
deriving DecidableEq, Repr

/-- The decision sequence of the background poller (`run_polling`,
main.py): when `is_polling()` reports a poll in progress the automatic
cycle skips its turn (`continue`); otherwise it calls
`start_polling("automatic")` and runs a cycle.  In asyncio the check and
the start execute without interleaving (no suspension point separates
them), so the pair is one atomic step. -/
def auto_tick (c : CoordState) : CoordState × CoordEv :=
  if c.ps.is_polling then (c, .autoSkipped)
  else ({ ps := (start_polling c.ps "automatic").1, active := c.active + 1 }, .autoStarted)

/-- The decision sequence of the manual trigger (`poll_all_device_api`,
endpoints/polling.py): when `is_polling()` reports a poll in progress the
request is rejected with HTTP 409 ("Polling already in progress");
otherwise it calls `start_polling("manual")` and runs a cycle. -/
def manual_request (c : CoordState) : CoordState × CoordEv :=
  if c.ps.is_polling then (c, .manualConflict)
  else ({ ps := (start_polling c.ps "manual").1, active := c.active + 1 }, .manualStarted)

/-- The `finally: await polling_state.end_polling()` of either driver. -/
def cycle_finish (c : CoordState) : CoordState × CoordEv :=
  ({ ps := end_polling c.ps, active := c.active - 1 }, .cycleEnded)

/-- One coordinator operation. -/
inductive CoordOp where
  | autoTick
  | manualRequest
  | finish
deriving DecidableEq, Repr

/-- Apply one coordinator operation. -/
def coord_step (c : CoordState) : CoordOp → CoordState × CoordEv
  | .autoTick => auto_tick c
  | .manualRequest => manual_request c
  | .finish => cycle_finish c

/-- Run a sequence of coordinator operations from a state. -/
def coord_run (c : CoordState) : List CoordOp → CoordState
  | [] => c
  | op :: ops => coord_run (coord_step c op).1 ops

/-- Mutual-exclusion invariant: at most one cycle is ever active, and the
shared flag says exactly whether one is. -/
def coord_inv (c : CoordState) : Prop :=
  c.active ≤ 1 ∧ (c.ps.is_polling = true ↔ c.active = 1)

/-! ## Alert-management endpoints (app/api/v1/endpoints/device_alerts.py) -/

/-- The `alert_type` path parameter of `manage_device_alert`, already past
the `alert_map` membership check. -/
inductive DeviceAlertType where
  | cpu
  | memory
  | reachability
deriving DecidableEq, Repr

/-- The `action` of the request body, already past the membership check. -/
inductive AlertAction where
  | acknowledge
  | resolve
deriving DecidableEq, Repr

/-- `getattr(device, state_field)` through `alert_map`. -/
def Device.alertState (d : Device) : DeviceAlertType → AlertState
  | .cpu => d.cpu_alert_state
  | .memory => d.memory_alert_state
  | .reachability => d.reachability_alert_state

/-- `getattr(device, ack_field)` through `alert_map`. -/
def Device.alertAckAt (d : Device) : DeviceAlertType → Option Int
  | .cpu => d.cpu_acknowledged_at
  | .memory => d.memory_acknowledged_at
  | .reachability => d.reachability_acknowledged_at

/-- `getattr(device, sent_field)` through `alert_map`. -/
def Device.alertSent (d : Device) : DeviceAlertType → Bool
  | .cpu => d.cpu_alert_sent
  | .memory => d.memory_alert_sent
  | .reachability => d.reachability_alert_sent

/-- `setattr` of the (state, acknowledged_at, alert_sent) triple selected by
`alert_map`; fields not named by the triple are untouched. -/
def Device.setAlertFields (d : Device) (t : DeviceAlertType)
    (st : AlertState) (ack : Option Int) (sent : Bool) : Device :=
  match t with
  | .cpu => { d with cpu_alert_state := st, cpu_acknowledged_at := ack, cpu_alert_sent := sent }
  | .memory =>
    { d with memory_alert_state := st, memory_acknowledged_at := ack, memory_alert_sent := sent }
  | .reachability =>
    { d with reachability_alert_state := st, reachability_acknowledged_at := ack,
             reachability_alert_sent := sent }

/-- Action dispatch of `manage_device_alert` (device_alerts.py):
acknowledge is rejected with `AlertNotFoundError` ("no active alert")
unless the current state is exactly `triggered`; resolve always succeeds,
setting state clear, acknowledged-at null and the sent flag false.  An
error raises before any `setattr`, so the device is unchanged on the error
path. -/
def manage_device_alert (d : Device) (t : DeviceAlertType) (a : AlertAction)
    (now : Int) : Except String Device :=
  match a with
  | .acknowledge =>
    if d.alertState t ≠ .triggered then .error "no active alert"
    else .ok (d.setAlertFields t .acknowledged (some now) (d.alertSent t))
  | .resolve => .ok (d.setAlertFields t .clear none false)

/-- The `alert_type` path parameter of `manage_interface_alert`. -/
inductive InterfaceAlertType where
  | status
  | drops
deriving DecidableEq, Repr

/-- `getattr(interface, state_field)` through the interface `alert_map`. -/
def Interface.alertState (i : Interface) : InterfaceAlertType → AlertState
  | .status => i.oper_status_alert_state
  | .drops => i.packet_drop_alert_state

/-- `getattr(interface, ack_field)` through the interface `alert_map`. -/
def Interface.alertAckAt (i : Interface) : InterfaceAlertType → Option Int
  | .status => i.oper_status_acknowledged_at
  | .drops => i.packet_drop_acknowledged_at

/-- `getattr(interface, sent_field)` through the interface `alert_map`. -/
def Interface.alertSent (i : Interface) : InterfaceAlertType → Bool
  | .status => i.oper_status_alert_sent
  | .drops => i.packet_drop_alert_sent

/-- `setattr` of the interface triple selected by the interface
`alert_map`. -/
def Interface.setAlertFields (i : Interface) (t : InterfaceAlertType)
    (st : AlertState) (ack : Option Int) (sent : Bool) : Interface :=
  match t with
  | .status =>
    { i with oper_status_alert_state := st, oper_status_acknowledged_at := ack,
             oper_status_alert_sent := sent }
  | .drops =>
    { i with packet_drop_alert_state := st, packet_drop_acknowledged_at := ack,
             packet_drop_alert_sent := sent }

/-- Action dispatch of `manage_interface_alert` (device_alerts.py), same
shape as the device-level endpoint. -/
def manage_interface_alert (i : Interface) (t : InterfaceAlertType) (a : AlertAction)
    (now : Int) : Except String Interface :=
  match a with
  | .acknowledge =>
    if i.alertState t ≠ .triggered then .error "no active alert"
    else .ok (i.setAlertFields t .acknowledged (some now) (i.alertSent t))
  | .resolve => .ok (i.setAlertFields t .clear none false)

/-! ## Query-layer counter deltas (app/api/v1/endpoints/query.py) -/

/-- The per-sample delta of `get_network_throughput` (and identically of
`get_device_utilization`), query.py: a SQL `case` implementing classic
Counter32 wraparound — `cur - prev` when `cur >= prev`, else
`(2^32 - prev) + cur`. -/
def throughput_delta (cur prev : Int) : Int :=
  if prev ≤ cur then cur - prev else 4294967296 - prev + cur

/-! ## Iterated evaluation and auxiliary predicates -/

/-- `n` consecutive polls re-running `AlertEvaluator.evaluate_cpu` on the
same reading: final device, total notifications sent, total alert-history
records opened. -/
def evaluate_cpu_iter (device : Device) (current_val : ℚ) (now : Int) :
    Nat → Device × Nat × Nat
  | 0 => (device, 0, 0)
  | n + 1 =>
    let out := evaluate_cpu device current_val now
    let rest := evaluate_cpu_iter out.device current_val now n
    (rest.1, out.notifications.length + rest.2.1, out.records_opened + rest.2.2)

/-- State hygiene every mutation path of the source maintains for each
interface alert pair: a pair in state `clear` has a null acknowledged-at
and a false sent flag (the evaluators, the resolve endpoint and
`clear_interface_alerts` all write the three fields together). -/
abbrev iface_clear_inv (i : Interface) : Prop :=
  (i.oper_status_alert_state = .clear →
    i.oper_status_acknowledged_at = none ∧ i.oper_status_alert_sent = false) ∧
  (i.packet_drop_alert_state = .clear →
    i.packet_drop_acknowledged_at = none ∧ i.packet_drop_alert_sent = false)

/-! ## Concrete fixtures used by witnesses and counterexamples -/

/-- A healthy interface with every alert pair clear (threshold 1% — a
whole-number rational, so concrete evaluations stay kernel-reducible). -/
def sampleIface : Interface :=
  { if_index := 1
    if_name := "Gi0/1"
    speed_bps := none
    speed_source := none
    packet_drop_threshold := 1
    oper_status_alert_state := .clear
    oper_status_acknowledged_at := none
    packet_drop_alert_state := .clear
    packet_drop_acknowledged_at := none
    packet_drop_alert_sent := false
    oper_status_alert_sent := false }

/-- A healthy device with default thresholds and one interface. -/
def sampleDevice : Device :=
  { hostname := "r1"
    ip_address := "10.0.0.1"
    cpu_threshold := 80
    memory_threshold := 80
    failure_threshold := 3
    cpu_alert_state := .clear
    cpu_acknowledged_at := none
    memory_alert_state := .clear
    memory_acknowledged_at := none
    reachability_alert_state := .clear
    reachability_acknowledged_at := none
    cpu_alert_sent := false
    memory_alert_sent := false
    reachability_alert_sent := false
    maintenance_mode := false
    maintenance_until := none
    maintenance_reason := none
    last_poll_attempt := none
    last_poll_success := none
    consecutive_failures := 0
    is_reachable := true
    interfaces := [sampleIface] }

/-- `sampleDevice` placed in an unexpired maintenance window `[_, 100)`. -/
def maintDevice : Device :=
  { sampleDevice with
    maintenance_mode := true
    maintenance_until := some 100
    maintenance_reason := some "scheduled work" }

/-- An interface metric sample with operational status up. -/
def sampleMetricUp : InterfaceMetric :=
  { timestamp := 0
    admin_status := some 1
    oper_status := some 1
    octets_in := some 1000
    octets_out := some 1000
    errors_in := some 0
    errors_out := some 0
    discards_in := some 0
    discards_out := some 0 }

/-- The next sample of the same interface, now operationally down. -/
def sampleMetricDown : InterfaceMetric :=
  { sampleMetricUp with timestamp := 1, oper_status := some 2 }

/-- `sampleDevice` with its CPU alert already triggered. -/
def triggeredDevice : Device :=
  { sampleDevice with cpu_alert_state := .triggered, cpu_alert_sent := true }

/-- `sampleIface` with its operational-status alert already triggered. -/
def downIfaceTriggered : Interface :=
  { sampleIface with oper_status_alert_state := .triggered, oper_status_alert_sent := true }

/-- A device one failure away from its failure threshold, owning one
interface with a triggered alert. -/
def failingDevice : Device :=
  { sampleDevice with consecutive_failures := 2, interfaces := [downIfaceTriggered] }

/-! ## Claim theorems -/

/-- C1: the packet-drop evaluation is meant to compute the discard rate as
(discards-in Δ + discards-out Δ) / (total packet Δ + total discard Δ) × 100
over the two most recent samples, and `_check_packet_drops` spells out
exactly that arithmetic — but it reads `packets_in` (and then
`packets_out`, `multicast_packets_in/out`, `broadcast_packets_in/out`) off
the metric rows, and `models.InterfaceMetric` declares none of those
columns.  Whenever a previous sample exists, the evaluation raises
`AttributeError` at the first such read, so no discard rate is ever
computed. -/
theorem c1_packet_drop_rate_crashes (device : Device) (iface : Interface)
    (latest prev : InterfaceMetric) :
    check_packet_drops device iface latest (some prev) =
      .error "AttributeError: packets_in" := rfl

/-- C2 counterexample: the claim says the interface operational-status
evaluator returns without changing any alert state or notifying while the
device's maintenance window is open, but `_check_oper_status` performs no
maintenance check at all: with the device in maintenance until 100 and a
down-edge at time 50, it transitions the interface to `triggered` and
returns a notifiable DOWN message. -/
theorem c2_counterexample :
    maintDevice.maintenance_mode = true ∧
    maintDevice.maintenance_until = some 100 ∧
    ((50:Int) < 100) ∧
    (check_oper_status maintDevice sampleIface sampleMetricDown
        (some sampleMetricUp)).interface.oper_status_alert_state = .triggered ∧
    (check_oper_status maintDevice sampleIface sampleMetricDown
        (some sampleMetricUp)).message = some "Interface Gi0/1 is DOWN" ∧
    (check_oper_status maintDevice sampleIface sampleMetricDown
        (some sampleMetricUp)).record_opened = true := by
  refine ⟨rfl, rfl, by norm_num, ?_, ?_, ?_⟩ <;> rfl

/-- C2 amended: during an unexpired maintenance window the cpu, memory and
reachability evaluators all return without changing state or notifying;
once the window has expired, the cpu evaluator is the only one that
disables maintenance (clearing the mode/until/reason fields) before
evaluating, while the memory and reachability evaluators evaluate normally
leaving the maintenance fields exactly as they were; and the interface
operational-status and packet-drop evaluators never consult the device at
all, so maintenance mode has no effect on them. -/
theorem c2_amended :
    (∀ (d : Device) (v : ℚ) (now u : Int),
       d.maintenance_mode = true → d.maintenance_until = some u → now < u →
       evaluate_cpu d v now =
         { device := d, notifications := [], records_opened := 0, result := false } ∧
       evaluate_memory d v now =
         { device := d, notifications := [], records_opened := 0, result := false } ∧
       evaluate_reachability d now =
         { device := d, notifications := [], records_opened := 0, result := false }) ∧
    (∀ (d : Device) (v : ℚ) (now u : Int),
       d.maintenance_mode = true → d.maintenance_until = some u → u ≤ now →
       evaluate_cpu d v now =
         evaluate_cpu_core
           { d with maintenance_mode := false, maintenance_until := none,
                    maintenance_reason := none } v ∧
       evaluate_memory d v now = evaluate_memory_core d v ∧
       evaluate_reachability d now = evaluate_reachability_core d) ∧
    (∀ (d : Device) (v : ℚ),
       (evaluate_memory_core d v).device.maintenance_mode = d.maintenance_mode ∧
       (evaluate_memory_core d v).device.maintenance_until = d.maintenance_until ∧
       (evaluate_memory_core d v).device.maintenance_reason = d.maintenance_reason) ∧
    (∀ d : Device,
       (evaluate_reachability_core d).device.maintenance_mode = d.maintenance_mode ∧
       (evaluate_reachability_core d).device.maintenance_until = d.maintenance_until ∧
       (evaluate_reachability_core d).device.maintenance_reason = d.maintenance_reason) ∧
    (∀ (d d2 : Device) (iface : Interface) (latest : InterfaceMetric)
       (previous : Option InterfaceMetric),
       check_oper_status d iface latest previous =
         check_oper_status d2 iface latest previous ∧
       check_packet_drops d iface latest previous =
         check_packet_drops d2 iface latest previous) := by
  refine ⟨?_, ?_, ?_, ?_, ?_⟩
  · intro d v now u hm hu hn
    refine ⟨?_, ?_, ?_⟩ <;>
      · simp only [evaluate_cpu, evaluate_memory, evaluate_reachability, hm, hu]
        rw [if_pos hn]
  · intro d v now u hm hu hn
    have hn2 : ¬ now < u := not_lt.mpr hn
    refine ⟨?_, ?_, ?_⟩ <;>
      · simp only [evaluate_cpu, evaluate_memory, evaluate_reachability, hm, hu]
        rw [if_neg hn2]
  · intro d v
    unfold evaluate_memory_core
    split_ifs <;> simp
  · intro d
    unfold evaluate_reachability_core
    split_ifs <;> simp
  · intro d d2 iface latest previous
    exact ⟨rfl, rfl⟩

/-- C2 witness: the amended theorem applied to the sample device inside an
unexpired maintenance window (until 100, evaluated at 50) — the cpu
evaluator suppresses. -/
theorem c2_amended_witness :
    evaluate_cpu maintDevice 90 50 =
      { device := maintDevice, notifications := [], records_opened := 0, result := false } :=
  (c2_amended.1 maintDevice 90 50 100 rfl rfl (by norm_num)).1

/-- A still-breaching CPU reading on a non-clear state leaves
`evaluate_cpu_core` as the exact `pass` no-op. -/
theorem evaluate_cpu_core_still_breaching (d : Device) (v : ℚ)
    (hne : d.cpu_alert_state ≠ .clear) (hbr : d.cpu_threshold < v) :
    evaluate_cpu_core d v =
      { device := d, notifications := [], records_opened := 0, result := false } := by
  simp [evaluate_cpu_core, hbr, hne]

/-- A still-breaching CPU poll through the maintenance gate: the alert
state, the threshold and the hostname survive unchanged and nothing is
sent or recorded. -/
theorem evaluate_cpu_still_breaching (d : Device) (v : ℚ) (now : Int)
    (hst : d.cpu_alert_state = .triggered ∨ d.cpu_alert_state = .acknowledged)
    (hbr : d.cpu_threshold < v) :
    (evaluate_cpu d v now).device.cpu_alert_state = d.cpu_alert_state ∧
    (evaluate_cpu d v now).device.cpu_threshold = d.cpu_threshold ∧
    (evaluate_cpu d v now).notifications = [] ∧
    (evaluate_cpu d v now).records_opened = 0 := by
  have hne : d.cpu_alert_state ≠ .clear := by
    rcases hst with h | h <;> simp [h]
  unfold evaluate_cpu
  rcases hm : d.maintenance_mode with _ | _ <;>
    rcases hu : d.maintenance_until with _ | u
  · simp [evaluate_cpu_core_still_breaching d v hne hbr]
  · simp [evaluate_cpu_core_still_breaching d v hne hbr]
  · simp [evaluate_cpu_core_still_breaching d v hne hbr]
  · by_cases hn : now < u
    · simp [hn]
    · have hcore := evaluate_cpu_core_still_breaching
        { d with maintenance_mode := false, maintenance_until := none,
                 maintenance_reason := none } v (by simpa using hne) (by simpa using hbr)
      simp [hn, hcore]

/-- C5: once an alert is `triggered` (or `acknowledged`) and the breach
persists, evaluation is a no-op: across any number of consecutive
still-breaching CPU polls the state is preserved and exactly zero
notifications are sent and zero history records opened; the memory,
reachability and interface operational-status machines take the same
`pass` branch on a single still-breaching evaluation.  (The packet-drop
machine has the same `pass` branches in the source; in execution its
evaluation aborts before reaching them — see C1 — so it too never
re-notifies.) -/
theorem c5_no_repeat_notifications :
    (∀ (d : Device) (v : ℚ) (now : Int) (n : Nat),
       (d.cpu_alert_state = .triggered ∨ d.cpu_alert_state = .acknowledged) →
       d.cpu_threshold < v →
       (evaluate_cpu_iter d v now n).1.cpu_alert_state = d.cpu_alert_state ∧
       (evaluate_cpu_iter d v now n).2.1 = 0 ∧
       (evaluate_cpu_iter d v now n).2.2 = 0) ∧
    (∀ (d : Device) (v : ℚ) (now : Int),
       (d.memory_alert_state = .triggered ∨ d.memory_alert_state = .acknowledged) →
       d.memory_threshold < v →
       (evaluate_memory d v now).device.memory_alert_state = d.memory_alert_state ∧
       (evaluate_memory d v now).notifications = [] ∧
       (evaluate_memory d v now).records_opened = 0) ∧
    (∀ (d : Device) (now : Int),
       (d.reachability_alert_state = .triggered ∨
         d.reachability_alert_state = .acknowledged) →
       d.is_reachable = false →
       (evaluate_reachability d now).device.reachability_alert_state =
         d.reachability_alert_state ∧
       (evaluate_reachability d now).notifications = [] ∧
       (evaluate_reachability d now).records_opened = 0) ∧
    (∀ (dev : Device) (iface : Interface) (latest : InterfaceMetric)
       (previous : Option InterfaceMetric),
       (iface.oper_status_alert_state = .triggered ∨
         iface.oper_status_alert_state = .acknowledged) →
       latest.oper_status ≠ some 1 →
       check_oper_status dev iface latest previous =
         { interface := iface, message := none, record_opened := false }) := by
  refine ⟨?_, ?_, ?_, ?_⟩
  · intro d v now n
    induction n generalizing d with
    | zero => intro hst hbr; simp [evaluate_cpu_iter]
    | succ n ih =>
      intro hst hbr
      obtain ⟨hs, ht, hn, hr⟩ := evaluate_cpu_still_breaching d v now hst hbr
      have ih2 := ih (evaluate_cpu d v now).device
        (by rw [hs]; exact hst) (by rw [ht]; exact hbr)
      simp only [evaluate_cpu_iter]
      refine ⟨by rw [ih2.1, hs], ?_, ?_⟩
      · simp [hn, ih2.2.1]
      · simp [hr, ih2.2.2]
  · intro d v now hst hbr
    have hne : d.memory_alert_state ≠ .clear := by
      rcases hst with h | h <;> simp [h]
    have hcore : evaluate_memory_core d v =
        { device := d, notifications := [], records_opened := 0, result := false } := by
      simp [evaluate_memory_core, hbr, hne]
    unfold evaluate_memory
    rcases hm : d.maintenance_mode with _ | _ <;>
      rcases hu : d.maintenance_until with _ | u <;>
        simp [hcore]
  · intro d now hst hbr
    have hne : d.reachability_alert_state ≠ .clear := by
      rcases hst with h | h <;> simp [h]
    have hcore : evaluate_reachability_core d =
        { device := d, notifications := [], records_opened := 0, result := false } := by
      simp [evaluate_reachability_core, hbr, hne]
    unfold evaluate_reachability
    rcases hm : d.maintenance_mode with _ | _ <;>
      rcases hu : d.maintenance_until with _ | u <;>
        simp [hcore]
  · intro dev iface latest previous hst hdown
    have hne : iface.oper_status_alert_state ≠ .clear := by
      rcases hst with h | h <;> simp [h]
    simp [check_oper_status, hdown, hne]

/-- C5 witness: five consecutive polls at CPU 95% against threshold 80 on a
device whose CPU alert is already triggered send zero notifications, open
zero records and leave the state `triggered`. -/
theorem c5_no_repeat_notifications_witness :
    (evaluate_cpu_iter triggeredDevice 95 0 5).1.cpu_alert_state = .triggered ∧
    (evaluate_cpu_iter triggeredDevice 95 0 5).2.1 = 0 ∧
    (evaluate_cpu_iter triggeredDevice 95 0 5).2.2 = 0 :=
  c5_no_repeat_notifications.1 triggeredDevice 95 0 5 (Or.inl rfl) (by decide)

/-- The reachability evaluator only touches alert/maintenance fields: the
failure counter, the reachability flag, the hostname and the interface
list survive it unchanged. -/
theorem evaluate_reachability_preserves (d : Device) (now : Int) :
    (evaluate_reachability d now).device.consecutive_failures = d.consecutive_failures ∧
    (evaluate_reachability d now).device.is_reachable = d.is_reachable ∧
    (evaluate_reachability d now).device.hostname = d.hostname ∧
    (evaluate_reachability d now).device.interfaces = d.interfaces := by
  have hcore : ∀ d2 : Device,
      (evaluate_reachability_core d2).device.consecutive_failures = d2.consecutive_failures ∧
      (evaluate_reachability_core d2).device.is_reachable = d2.is_reachable ∧
      (evaluate_reachability_core d2).device.hostname = d2.hostname ∧
      (evaluate_reachability_core d2).device.interfaces = d2.interfaces := by
    intro d2
    unfold evaluate_reachability_core
    split_ifs <;> simp
  unfold evaluate_reachability
  rcases hm : d.maintenance_mode with _ | _ <;>
    rcases hu : d.maintenance_until with _ | u <;>
      simp [hcore d]
  by_cases hn : now < u <;> simp [hn, hcore d]

/-- C6: on a failed device-level SNMP poll, `poll_device` increments the
consecutive-failure counter; for a device that was reachable, the
reachability flag flips to false exactly when the incremented counter has
reached the configured failure threshold; no device metric row is written;
False is returned, so `limited_polling` skips the interface poll and
writes no interface row for the device in that cycle; and the reachability
evaluator runs in the same call — for a reachable clear-state device
crossing the threshold outside maintenance it emits exactly the
device-unreachable notification. -/
theorem c6_poll_failure (d : Device)
    (walk : Option (List (Nat × List (String × String)))) (t now : Int) :
    (poll_device d .failure t now).device.consecutive_failures =
      d.consecutive_failures + 1 ∧
    (poll_device d .failure t now).metric_rows = [] ∧
    (poll_device d .failure t now).succeeded = false ∧
    (d.is_reachable = true →
      ((poll_device d .failure t now).device.is_reachable = false ↔
        d.failure_threshold ≤ d.consecutive_failures + 1)) ∧
    (limited_polling d .failure walk t now).interface_poll_attempted = false ∧
    (limited_polling d .failure walk t now).interface_rows = [] ∧
    (d.is_reachable = true → d.failure_threshold ≤ d.consecutive_failures + 1 →
      d.reachability_alert_state = .clear → d.maintenance_mode = false →
      (poll_device d .failure t now).notifications = [.unreachableAlert d.hostname]) := by
  have hsucc : (poll_device d .failure t now).succeeded = false := by
    simp only [poll_device]
  refine ⟨?_, ?_, hsucc, ?_, ?_, ?_, ?_⟩
  · simp only [poll_device]
    split_ifs with h
    · simpa using (evaluate_reachability_preserves _ now).1
    · simpa using (evaluate_reachability_preserves _ now).1
  · simp only [poll_device]
  · intro hreach
    simp only [poll_device]
    split_ifs with h
    · have := (evaluate_reachability_preserves
        { d with last_poll_attempt := some t,
                 consecutive_failures := d.consecutive_failures + 1,
                 is_reachable := false } now).2.1
      simp only [this]
      simpa using h.1
    · have := (evaluate_reachability_preserves
        { d with last_poll_attempt := some t,
                 consecutive_failures := d.consecutive_failures + 1 } now).2.1
      simp only [this]
      simp only [not_and] at h
      have hne : ¬ d.failure_threshold ≤ d.consecutive_failures + 1 :=
        fun hh => h hh hreach
      simp [hreach]
      omega
  · simp only [limited_polling, hsucc]
    rfl
  · simp only [limited_polling, hsucc]
    rfl
  · intro hreach hthr hclear hmaint
    simp only [poll_device]
    rw [if_pos (by simpa [hreach] using hthr)]
    unfold evaluate_reachability
    simp only [hmaint]
    unfold evaluate_reachability_core
    simp [hclear]

/-- C6 witness: the failing sample device (2 prior failures, threshold 3)
crosses the threshold on this failed poll: counter 3, unreachable, no
metric row, no interface poll, and the unreachable notification fires. -/
theorem c6_poll_failure_witness :
    (poll_device failingDevice .failure 7 0).device.consecutive_failures = 3 ∧
    (poll_device failingDevice .failure 7 0).metric_rows = [] ∧
    ((poll_device failingDevice .failure 7 0).device.is_reachable = false ↔
      failingDevice.failure_threshold ≤ failingDevice.consecutive_failures + 1) ∧
    (limited_polling failingDevice .failure none 7 0).interface_rows = [] ∧
    (poll_device failingDevice .failure 7 0).notifications =
      [.unreachableAlert failingDevice.hostname] := by
  have h := c6_poll_failure failingDevice none 7 0
  exact ⟨h.1, h.2.1, h.2.2.2.1 rfl, h.2.2.2.2.2.1,
    h.2.2.2.2.2.2 rfl (by decide) rfl rfl⟩

/-- After `clear_one_interface`, an interface satisfying the clear-state
hygiene invariant has both alert pairs fully reset. -/
theorem clear_one_interface_resets (i : Interface) (hinv : iface_clear_inv i) :
    (clear_one_interface i).oper_status_alert_state = .clear ∧
    (clear_one_interface i).oper_status_acknowledged_at = none ∧
    (clear_one_interface i).oper_status_alert_sent = false ∧
    (clear_one_interface i).packet_drop_alert_state = .clear ∧
    (clear_one_interface i).packet_drop_acknowledged_at = none ∧
    (clear_one_interface i).packet_drop_alert_sent = false := by
  unfold clear_one_interface
  split_ifs with h
  · simp
  · push_neg at h
    obtain ⟨h1, h2⟩ := h
    obtain ⟨ha1, ha2⟩ := hinv.1 h1
    obtain ⟨hb1, hb2⟩ := hinv.2 h2
    exact ⟨h1, ha1, ha2, h2, hb1, hb2⟩

/-- The reachability evaluator never dispatches an interface-recovery
e-mail (its two subjects are device-unreachable and device-recovered). -/
theorem evaluate_reachability_no_iface_recovery (d : Device) (now : Int) (h : String) :
    Notif.interfaceRecovery h ∉ (evaluate_reachability d now).notifications := by
  have hcore : ∀ d2 : Device,
      Notif.interfaceRecovery h ∉ (evaluate_reachability_core d2).notifications := by
    intro d2
    unfold evaluate_reachability_core
    split_ifs <;> simp
  unfold evaluate_reachability
  rcases hm : d.maintenance_mode with _ | _ <;>
    rcases hu : d.maintenance_until with _ | u <;>
      simp [hcore d]
  by_cases hn : now < u <;> simp [hn, hcore d]

/-- The failure path of `poll_device` only emits reachability subjects,
never an interface-recovery one. -/
theorem poll_device_failure_no_iface_recovery (d : Device) (t now : Int) (h : String) :
    Notif.interfaceRecovery h ∉ (poll_device d .failure t now).notifications := by
  simp only [poll_device]
  split_ifs <;> exact evaluate_reachability_no_iface_recovery _ now h

/-- The failure path of `poll_device` leaves the interface list as it was. -/
theorem poll_device_failure_interfaces (d : Device) (t now : Int) :
    (poll_device d .failure t now).device.interfaces = d.interfaces := by
  simp only [poll_device]
  split_ifs <;> simpa using (evaluate_reachability_preserves _ now).2.2.2

/-- C7: when the device poll fails and the device is (now) unreachable,
`limited_polling` forces every interface of the device back to both alert
states `clear`, with null acknowledged-at timestamps and false sent flags
(assuming the clear-state hygiene invariant every mutation path maintains),
and no interface-recovery notification is dispatched for any of them. -/
theorem c7_unreachable_clears (d : Device)
    (walk : Option (List (Nat × List (String × String)))) (t now : Int)
    (hinv : ∀ i ∈ d.interfaces, iface_clear_inv i) :
    ((limited_polling d .failure walk t now).device.is_reachable = false →
      ∀ i ∈ (limited_polling d .failure walk t now).device.interfaces,
        i.oper_status_alert_state = .clear ∧ i.oper_status_acknowledged_at = none ∧
        i.oper_status_alert_sent = false ∧ i.packet_drop_alert_state = .clear ∧
        i.packet_drop_acknowledged_at = none ∧ i.packet_drop_alert_sent = false) ∧
    (∀ h : String,
      Notif.interfaceRecovery h ∉ (limited_polling d .failure walk t now).notifications) := by
  have hsucc : (poll_device d .failure t now).succeeded = false := by
    simp only [poll_device]
  constructor
  · intro hru i hi
    by_cases hr : (poll_device d .failure t now).device.is_reachable = true
    · exfalso
      simp [limited_polling, hsucc, hr] at hru
    · simp only [limited_polling, hsucc] at hi
      simp [hr, clear_interface_alerts, poll_device_failure_interfaces d t now] at hi
      obtain ⟨j, hj, rfl⟩ := hi
      exact clear_one_interface_resets j (hinv j hj)
  · intro hstr
    have hno := poll_device_failure_no_iface_recovery d t now hstr
    by_cases hr : (poll_device d .failure t now).device.is_reachable = true <;>
      simp [limited_polling, hsucc, hr, clear_interface_alerts, hno]

/-- C7 witness: the theorem applied to the failing sample device (crossing
its threshold on this poll, hence unreachable) and its triggered interface:
after the pass that interface is fully cleared. -/
theorem c7_unreachable_clears_witness :
    (clear_one_interface downIfaceTriggered).oper_status_alert_state = .clear ∧
    (clear_one_interface downIfaceTriggered).oper_status_acknowledged_at = none ∧
    (clear_one_interface downIfaceTriggered).oper_status_alert_sent = false ∧
    (clear_one_interface downIfaceTriggered).packet_drop_alert_state = .clear ∧
    (clear_one_interface downIfaceTriggered).packet_drop_acknowledged_at = none ∧
    (clear_one_interface downIfaceTriggered).packet_drop_alert_sent = false :=
  (c7_unreachable_clears failingDevice none 7 0 (by decide)).1 (by decide)
    (clear_one_interface downIfaceTriggered) (by decide)

/-- Every device metric row `poll_device` writes carries its `poll_time`
argument. -/
theorem poll_device_rows_timestamp (d : Device) (res : SnmpResult) (t now : Int) :
    ∀ r ∈ (poll_device d res t now).metric_rows, r.timestamp = t := by
  intro r hr
  cases res <;> simp only [poll_device] at hr
  · simp at hr
  · simp at hr
    subst hr
    rfl

/-- Every interface metric row built by the interface poll carries its
`poll_time` argument. -/
theorem poll_interfaces_rows_timestamp
    (walk : Option (List (Nat × List (String × String)))) (t : Int) :
    ∀ r ∈ poll_interfaces_rows walk t, r.timestamp = t := by
  intro r hr
  cases walk with
  | none => simp [poll_interfaces_rows] at hr
  | some data =>
    simp only [poll_interfaces_rows, List.mem_map] at hr
    obtain ⟨j, hj, rfl⟩ := hr
    rfl

/-- C8: `perform_full_poll` computes one cycle timestamp before fanning
out and hands exactly it to every per-device task; every device metric row
and every interface metric row a task of the pass produces carries that
timestamp, identically across all devices and interfaces of the pass. -/
theorem c8_shared_cycle_timestamp
    (jobs : List (Device × SnmpResult × Option (List (Nat × List (String × String)))))
    (t now : Int) :
    ∀ out ∈ perform_full_poll jobs t now,
      (∀ r ∈ out.device_rows, r.timestamp = t) ∧
      (∀ r ∈ out.interface_rows, r.timestamp = t) := by
  intro out hout
  simp only [perform_full_poll, List.mem_map] at hout
  obtain ⟨j, hj, rfl⟩ := hout
  constructor
  · intro r hr
    have hrows : (limited_polling j.1 j.2.1 j.2.2 t now).device_rows =
        (poll_device j.1 j.2.1 t now).metric_rows := by
      simp only [limited_polling]
      split_ifs <;> rfl
    rw [hrows] at hr
    exact poll_device_rows_timestamp j.1 j.2.1 t now r hr
  · intro r hr
    by_cases hs : (poll_device j.1 j.2.1 t now).succeeded = true
    · have hrows : (limited_polling j.1 j.2.1 j.2.2 t now).interface_rows =
          poll_interfaces_rows j.2.2 t := by
        simp only [limited_polling]
        rw [if_pos hs]
      rw [hrows] at hr
      exact poll_interfaces_rows_timestamp j.2.2 t r hr
    · have hrows : (limited_polling j.1 j.2.1 j.2.2 t now).interface_rows = [] := by
        simp only [limited_polling]
        rw [if_neg hs]
      rw [hrows] at hr
      simp at hr

/-- C8 witness: the theorem applied to a one-job pass (the sample device
polling successfully at cycle time 7): its single device metric row carries
timestamp 7. -/
theorem c8_shared_cycle_timestamp_witness :
    (insert_device_metric 10 20 7).timestamp = 7 :=
  (c8_shared_cycle_timestamp [(sampleDevice, .success 10 20, some [(1, [])])] 7 0
      (limited_polling sampleDevice (.success 10 20) (some [(1, [])]) 7 0)
      (by simp [perform_full_poll])).1
    (insert_device_metric 10 20 7) (by decide)

/-- C3 counterexample: the claim asserts every computed counter delta is 0
when `cur < prev` and never negative, but the network-throughput query's
delta applies Counter32 wraparound: at `(cur, prev) = (4, 9)` it yields
2^32 − 5 rather than 0, and at `(cur, prev) = (0, 2·2^32)` — reachable
because the polled octet counters are 64-bit — it is negative. -/
theorem c3_counterexample :
    throughput_delta 4 9 = 4294967291 ∧ (4:Int) < 9 ∧ throughput_delta 4 9 ≠ 0 ∧
    throughput_delta 0 8589934592 = -4294967296 ∧ throughput_delta 0 8589934592 < 0 := by
  refine ⟨by norm_num [throughput_delta], by norm_num,
    by norm_num [throughput_delta], by norm_num [throughput_delta],
    by norm_num [throughput_delta]⟩

/-- C3 amended: the alert-evaluation delta (`get_safe_delta`) equals
`cur − prev` when `cur ≥ prev` and 0 when `cur < prev`, and is never
negative; the throughput/utilization queries instead use Counter32
wraparound `(2^32 − prev) + cur` when `cur < prev`, which is positive only
while `prev − cur < 2^32` and negative beyond it. -/
theorem c3_amended :
    (∀ cur prev : Int, prev ≤ cur → get_safe_delta (some cur) (some prev) = cur - prev) ∧
    (∀ cur prev : Int, cur < prev → get_safe_delta (some cur) (some prev) = 0) ∧
    (∀ a b : Option Int, 0 ≤ get_safe_delta a b) ∧
    (∀ cur prev : Int, prev ≤ cur → throughput_delta cur prev = cur - prev) ∧
    (∀ cur prev : Int, cur < prev → throughput_delta cur prev = 4294967296 - prev + cur) ∧
    (∀ cur prev : Int, cur < prev → prev - cur < 4294967296 → 0 < throughput_delta cur prev) ∧
    (∀ cur prev : Int, 4294967296 < prev - cur → throughput_delta cur prev < 0) := by
  refine ⟨?_, ?_, ?_, ?_, ?_, ?_, ?_⟩
  · intro cur prev h
    simp only [get_safe_delta]
    omega
  · intro cur prev h
    simp only [get_safe_delta]
    omega
  · intro a b
    rcases a with _ | cur
    · simp [get_safe_delta]
    · rcases b with _ | prev
      · simp [get_safe_delta]
      · simp only [get_safe_delta]
        split <;> omega
  · intro cur prev h
    simp only [throughput_delta]
    omega
  · intro cur prev h
    simp only [throughput_delta]
    omega
  · intro cur prev h h2
    simp only [throughput_delta]
    omega
  · intro cur prev h
    simp only [throughput_delta]
    omega

/-- C3 witness: the amended theorem applied at `(cur, prev) = (4, 9)` for
the alert-path delta and at `(9, 4)` for the query-path delta. -/
theorem c3_amended_witness :
    get_safe_delta (some 4) (some 9) = 0 ∧ throughput_delta 9 4 = 5 :=
  ⟨c3_amended.2.1 4 9 (by norm_num), c3_amended.2.2.2.1 9 4 (by norm_num)⟩

/-- C4: on both the device-level and the interface-level alert endpoints,
an acknowledge whose current state is not exactly `triggered` is rejected
with the "no active alert" error (the raise happens before any `setattr`,
so nothing is mutated), while a resolve always succeeds and leaves the
addressed alert pair in state `clear` with a null acknowledged-at and a
false sent flag. -/
theorem c4_ack_resolve :
    (∀ (d : Device) (t : DeviceAlertType) (now : Int),
       d.alertState t ≠ .triggered →
       manage_device_alert d t .acknowledge now = .error "no active alert") ∧
    (∀ (d : Device) (t : DeviceAlertType) (now : Int),
       ∃ d2, manage_device_alert d t .resolve now = .ok d2 ∧
         d2.alertState t = .clear ∧ d2.alertAckAt t = none ∧ d2.alertSent t = false) ∧
    (∀ (i : Interface) (t : InterfaceAlertType) (now : Int),
       i.alertState t ≠ .triggered →
       manage_interface_alert i t .acknowledge now = .error "no active alert") ∧
    (∀ (i : Interface) (t : InterfaceAlertType) (now : Int),
       ∃ i2, manage_interface_alert i t .resolve now = .ok i2 ∧
         i2.alertState t = .clear ∧ i2.alertAckAt t = none ∧ i2.alertSent t = false) := by
  refine ⟨?_, ?_, ?_, ?_⟩
  · intro d t now h
    simp [manage_device_alert, h]
  · intro d t now
    refine ⟨d.setAlertFields t .clear none false, rfl, ?_, ?_, ?_⟩ <;>
      cases t <;> rfl
  · intro i t now h
    simp [manage_interface_alert, h]
  · intro i t now
    refine ⟨i.setAlertFields t .clear none false, rfl, ?_, ?_, ?_⟩ <;>
      cases t <;> rfl

/-- C4 witness: acknowledging the (clear) CPU alert of the sample device
fails with "no active alert", and resolving it from any state yields the
clear/null/false triple. -/
theorem c4_ack_resolve_witness :
    manage_device_alert sampleDevice .cpu .acknowledge 5 = .error "no active alert" ∧
    ∃ d2, manage_device_alert sampleDevice .memory .resolve 5 = .ok d2 ∧
      d2.alertState .memory = .clear ∧ d2.alertAckAt .memory = none ∧
      d2.alertSent .memory = false :=
  ⟨c4_ack_resolve.1 sampleDevice .cpu 5 (by decide),
   c4_ack_resolve.2.1 sampleDevice .memory 5⟩

/-- One coordinator operation preserves the mutual-exclusion invariant. -/
theorem coord_step_preserves_inv (c : CoordState) (op : CoordOp)
    (h : coord_inv c) : coord_inv (coord_step c op).1 := by
  obtain ⟨h1, h2⟩ := h
  cases op with
  | autoTick =>
    by_cases hp : c.ps.is_polling = true
    · have ha : c.active = 1 := h2.mp hp
      simp [coord_step, auto_tick, hp, coord_inv, ha]
    · have ha : c.active = 0 := by
        have : c.active ≠ 1 := fun hh => hp (h2.mpr hh)
        omega
      simp [coord_step, auto_tick, hp, start_polling, coord_inv, ha]
  | manualRequest =>
    by_cases hp : c.ps.is_polling = true
    · have ha : c.active = 1 := h2.mp hp
      simp [coord_step, manual_request, hp, coord_inv, ha]
    · have ha : c.active = 0 := by
        have : c.active ≠ 1 := fun hh => hp (h2.mpr hh)
        omega
      simp [coord_step, manual_request, hp, start_polling, coord_inv, ha]
  | finish =>
    have : c.active - 1 = 0 := by omega
    simp [coord_step, cycle_finish, end_polling, coord_inv, this]

/-- Any run of coordinator operations preserves the invariant. -/
theorem coord_run_preserves_inv (ops : List CoordOp) (c : CoordState)
    (h : coord_inv c) : coord_inv (coord_run c ops) := by
  induction ops generalizing c with
  | nil => exact h
  | cons op ops ih => exact ih _ (coord_step_preserves_inv c op h)

/-- C9: `start_polling` succeeds and records the kind exactly when no poll
is running and otherwise returns False leaving the state untouched;
`end_polling` always restores the idle state; the automatic tick skips
exactly when a poll is running and the manual trigger reports a conflict
exactly when a poll is running; and along every operation sequence from
the idle state at most one poll cycle is ever active. -/
theorem c9_coordinator :
    (∀ (s : PollingState) (k : String), s.is_polling = false →
       start_polling s k = ({ is_polling := true, polling_type := some k }, true)) ∧
    (∀ (s : PollingState) (k : String), s.is_polling = true →
       start_polling s k = (s, false)) ∧
    (∀ s : PollingState, end_polling s = PollingState.initial) ∧
    (∀ c : CoordState, (auto_tick c).2 = .autoSkipped ↔ c.ps.is_polling = true) ∧
    (∀ c : CoordState, (manual_request c).2 = .manualConflict ↔ c.ps.is_polling = true) ∧
    (∀ ops : List CoordOp,
       (coord_run { ps := PollingState.initial, active := 0 } ops).active ≤ 1) := by
  refine ⟨?_, ?_, ?_, ?_, ?_, ?_⟩
  · intro s k h
    simp [start_polling, h]
  · intro s k h
    simp [start_polling, h]
  · intro s
    rfl
  · intro c
    by_cases hp : c.ps.is_polling = true <;> simp [auto_tick, hp]
  · intro c
    by_cases hp : c.ps.is_polling = true <;> simp [manual_request, hp]
  · intro ops
    exact (coord_run_preserves_inv ops _ (by simp [coord_inv, PollingState.initial])).1

/-- C9 witness: the theorem applied to a concrete state and a concrete
operation sequence (a manual start while idle, an automatic tick that must
skip, and the finish). -/
theorem c9_coordinator_witness :
    start_polling PollingState.initial "manual" =
      ({ is_polling := true, polling_type := some "manual" }, true) ∧
    (coord_run { ps := PollingState.initial, active := 0 }
      [.manualRequest, .autoTick, .finish]).active ≤ 1 :=
  ⟨c9_coordinator.1 PollingState.initial "manual" rfl,
   c9_coordinator.2.2.2.2.2 [.manualRequest, .autoTick, .finish]⟩

/-- Anything the `ifSpeed` fallback accepts is strictly between 0 and the
2^32−1 cap sentinel. -/
theorem if_speed_fallback_bounds (raw : List (String × String)) (s : Int) (src : String)
    (h : if_speed_fallback raw = some (s, src)) : 0 < s ∧ s < 4294967295 := by
  simp only [if_speed_fallback] at h
  split at h
  · split at h
    · split at h
      · rename_i hb
        rw [Option.some.injEq, Prod.mk.injEq] at h
        obtain ⟨h1, h2⟩ := h
        subst h1
        exact hb
      · cases h
    · cases h
  · cases h

/-- C10: `calculate_interface_speed` returns either nothing or a strictly
positive speed; a positive numeric `ifHighSpeed` reading is always
preferred and converted from Mbps to bps; and the 32-bit cap sentinel
4294967295 is never returned as a speed (the `ifSpeed` branch excludes it
strictly, and the `ifHighSpeed` branch only produces multiples of
1,000,000). -/
theorem c10_interface_speed :
    (∀ (raw : List (String × String)) (s : Int) (src : String),
       calculate_interface_speed raw = some (s, src) → 0 < s ∧ s ≠ 4294967295) ∧
    (∀ (raw : List (String × String)) (hi : Int),
       py_truthy (raw_get raw OID_if_high_speed) = true →
       (raw_get raw OID_if_high_speed).bind py_int? = some hi → 0 < hi →
       calculate_interface_speed raw = some (hi * 1000000, "ifHighSpeed")) := by
  constructor
  · intro raw s src h
    simp only [calculate_interface_speed] at h
    split at h
    · split at h
      · rename_i hi hparse
        split at h
        · rename_i hpos
          rw [Option.some.injEq, Prod.mk.injEq] at h
          obtain ⟨h1, h2⟩ := h
          subst h1
          constructor
          · positivity
          · intro habs
            omega
        · have := if_speed_fallback_bounds raw s src h
          exact ⟨this.1, by omega⟩
      · have := if_speed_fallback_bounds raw s src h
        exact ⟨this.1, by omega⟩
    · have := if_speed_fallback_bounds raw s src h
      exact ⟨this.1, by omega⟩
  · intro raw hi htruthy hparse hpos
    simp only [calculate_interface_speed, htruthy, hparse, if_true, hpos, if_pos]

/-- C10 witness: a raw map carrying `ifHighSpeed = "1000"` (Mbps) yields
exactly 1,000,000,000 bps from the `ifHighSpeed` source, and that speed is
positive and is not the cap sentinel. -/
theorem c10_interface_speed_witness :
    calculate_interface_speed [(OID_if_high_speed, "1000")] =
      some (1000000000, "ifHighSpeed") ∧
    (0:Int) < 1000000000 ∧ (1000000000:Int) ≠ 4294967295 := by
  have h2 := c10_interface_speed.2 [(OID_if_high_speed, "1000")] 1000
    (by decide) (by decide) (by norm_num)
  have h1 := c10_interface_speed.1 [(OID_if_high_speed, "1000")] 1000000000
    "ifHighSpeed" (by simpa using h2)
  exact ⟨by simpa using h2, h1.1, h1.2⟩

end SnmpMon
